import Mathlib

/-!
Verification of the builder-backend collaboration core.

Shallow embedding of the versioned state model (KVState / TreeState),
the release-by-copy operation, the administrative recoverSnapshot
HTTP handler and the export DTO constructor, together with theorems
settling the specification claims about them.

Machine integers are modelled as `Int`; `time.Time` values as `Int`
(nanoseconds since epoch); the relational store backing a repository
as a `List` of rows.  Fallible collaborator calls are modelled with
`Except` / `Option`, and external collaborator behaviour (the
repository implementation, the validator library) is a parameter of
the embedded service functions, so the theorems quantify over every
behaviour the Go interfaces admit.
-/

namespace BuilderBackend

/-- KV state row, after `KVStateDto` (pkg/state) and the field-identical
`repository.KVState` written by `CreateKVState`: identity, `stateType`,
`appRefID`, `version`, `key`, `value` and the four audit fields. -/
structure KVState where
  ID : Int
  StateType : Int
  AppRefID : Int
  Version : Int
  Key : String
  Value : String
  CreatedAt : Int
  CreatedBy : Int
  UpdatedAt : Int
  UpdatedBy : Int
deriving DecidableEq, Repr

/-- Modelled from the spec: `repository.APP_EDIT_VERSION`, the distinguished
version number tagging the edit version ("all three state kinds are created
against the edit version"); the constant itself is declared outside the
provided sources.  Its concrete value is immaterial to every theorem below. -/
def APP_EDIT_VERSION : Int := 0

/-- Modelled from the spec: repository retrieval
`RetrieveAllTypeKVStatesByApp(appID, version)` — every stored KV-state row of
the given application at the given version, across all state types
(the `RetrieveByApp` contract of §6, without the state-type restriction). -/
def retrieveAllTypeKVStatesByApp (store : List KVState) (appID version : Int) :
    List KVState :=
  store.filter (fun kv => kv.AppRefID == appID && kv.Version == version)

/-- A single token standing for any repository (persistence) error. -/
inductive RepoErr
  | failure
deriving DecidableEq, Repr

/-- Behaviour of a KV-state repository implementation (an external
collaborator behind the `KVStateRepository` interface): whether a given
`Create` call fails on a given store, and whether the retrieval fails. -/
structure KVRepoBehavior where
  createFails : KVState → List KVState → Bool
  retrieveAllFails : Int → List KVState → Bool

/-- The repository behaviour in which no persistence call ever fails. -/
def reliableKVRepo : KVRepoBehavior :=
  { createFails := fun _ _ => false
    retrieveAllFails := fun _ _ => false }

/-- The application reference consumed by `ReleaseKVStateByApp`
(`app.ID` and `app.MainlineVersion` are the only fields it reads). -/
structure AppRef where
  ID : Int
  MainlineVersion : Int
deriving DecidableEq, Repr

/-- The version restamping done by the first loop of `ReleaseKVStateByApp`
(`kvstates[serial].Version = app.MainlineVersion`). -/
def stampVersion (m : Int) (kv : KVState) : KVState :=
  { kv with Version := m }

/-- The second loop of `ReleaseKVStateByApp`: create each restamped row in
turn, returning the caller-visible error (if any) together with the store
as the repository leaves it — on a failed `Create` the Go code returns
immediately, so rows created before the failure stay persisted. -/
def createLoop (beh : KVRepoBehavior) :
    List KVState → List KVState → Option RepoErr × List KVState
  | store, [] => (none, store)
  | store, kv :: rest =>
    if beh.createFails kv store then (some RepoErr.failure, store)
    else createLoop beh (store ++ [kv]) rest

/-- Embedding of `ReleaseKVStateByApp` (pkg/state): retrieve every
edit-version KV-state row of the application, restamp each with the
mainline version, and create the restamped rows one by one, stopping at
the first repository error. -/
def releaseKVStateByApp (beh : KVRepoBehavior) (app : AppRef)
    (store : List KVState) : Option RepoErr × List KVState :=
  if beh.retrieveAllFails app.ID store then (some RepoErr.failure, store)
  else
    createLoop beh store
      ((retrieveAllTypeKVStatesByApp store app.ID APP_EDIT_VERSION).map
        (stampVersion app.MainlineVersion))

/-- The rows `ReleaseKVStateByApp` hands to the repository: every
edit-version row of the application, restamped with its mainline version. -/
def releasedCopies (store : List KVState) (app : AppRef) : List KVState :=
  (retrieveAllTypeKVStatesByApp store app.ID APP_EDIT_VERSION).map
    (stampVersion app.MainlineVersion)

/-- Sample edit-version row used for concrete evaluations. -/
def kvSampleA : KVState :=
  ⟨1, 2, 1, APP_EDIT_VERSION, "a", "va", 10, 7, 10, 7⟩

/-- A second sample edit-version row for the same application. -/
def kvSampleB : KVState :=
  ⟨2, 2, 1, APP_EDIT_VERSION, "b", "vb", 11, 7, 11, 7⟩

/-- A repository behaviour whose `Create` fails as soon as the store holds
three rows: with a two-row store, the first copy succeeds and the second
fails, exhibiting a release interrupted half-way. -/
def flakyKVRepo : KVRepoBehavior :=
  { createFails := fun _ s => decide (3 ≤ s.length)
    retrieveAllFails := fun _ _ => false }

/-- A single token standing for any struct-validation error. -/
inductive VErr
  | invalid
deriving DecidableEq, Repr

/-- Behaviour of `validator.New().Struct` applied to a `KVStateDto`: the
struct declares no validation tags, so the external validator library
accepts every value.  `CreateKVState` and `UpdateKVState` below take the
check as a parameter so that their error-handling control flow is settled
for every validator behaviour the library could exhibit; this constant is
the behaviour of the actual call site. -/
def kvStateStructCheck : KVState → Option VErr := fun _ => none

/-- Modelled from the spec: the repository contract `Update` (§6) replaces
the stored KV-state row with the caller's row of the same identity; the
`KVStateRepositoryImpl` itself is outside the provided sources. -/
def repoUpdateKVState (kv : KVState) (store : List KVState) : List KVState :=
  store.map (fun r => if r.ID == kv.ID then kv else r)

/-- Embedding of `CreateKVState` (pkg/state): validate the payload, stamp
`CreatedAt` and `UpdatedAt` with the current time, and create the row in
the repository (modelled as an append, per the `Create` contract of §6).
Returns the resulting DTO (or the validation error) together with the
store; the `version` parameter is accepted and ignored, as in the source.
A rejected payload is returned before the repository is touched. -/
def createKVState (check : KVState → Option VErr) (version now : Int)
    (kvstate : KVState) (store : List KVState) :
    Except VErr KVState × List KVState :=
  match check kvstate with
  | some e => (Except.error e, store)
  | none =>
    let kv2 := { kvstate with CreatedAt := now, UpdatedAt := now }
    (Except.ok kv2, store ++ [kv2])

/-- Embedding of `UpdateKVState` (pkg/state): validate the payload, stamp
`UpdatedAt` with the current time, and update the row in the repository.
A rejected payload is returned before the repository is touched. -/
def updateKVState (check : KVState → Option VErr) (version now : Int)
    (kvstate : KVState) (store : List KVState) :
    Except VErr KVState × List KVState :=
  match check kvstate with
  | some e => (Except.error e, store)
  | none =>
    let kv2 := { kvstate with UpdatedAt := now }
    (Except.ok kv2, repoUpdateKVState kv2 store)

/-- Two KV-state rows agree on the scoping tuple
`(appRefID, version, stateType, key)`. -/
def kvSameTuple (a b : KVState) : Bool :=
  a.AppRefID == b.AppRefID && a.Version == b.Version
    && a.StateType == b.StateType && a.Key == b.Key

/-- The `(appRefID, version, stateType, key)` tuple is unique across the
stored rows. -/
def kvUniqueB : List KVState → Bool
  | [] => true
  | x :: xs => xs.all (fun y => !(kvSameTuple x y)) && kvUniqueB xs

/-- A row with the same scoping tuple as `kvSampleA` but a different
identity and value. -/
def kvDupA : KVState :=
  ⟨9, 2, 1, APP_EDIT_VERSION, "a", "other", 0, 8, 0, 8⟩

/-- Modelled from the spec: the signal kinds of a dispatched message
(§4.4: value-change, force-refresh, error); the `builderoperation`
constants are outside the provided sources. -/
inductive Signal
  | valueChange
  | forceRefresh
  | errorSignal
deriving DecidableEq, Repr

/-- Modelled from the spec: the target scope of a dispatched message
(§4.4: single widget / whole window / whole room). -/
inductive Target
  | widget
  | window
  | wholeRoom
deriving DecidableEq, Repr

/-- Modelled from the spec: the message envelope
(signal, target, broadcast, clientID and an empty payload, §6) built by
the recovery endpoint. -/
structure WsMessage where
  clientID : Int
  appID : Int
  signal : Signal
  target : Target
  broadcast : Bool
deriving DecidableEq, Repr

/-- Modelled from the spec: the reserved client identity the server uses
for server-originated signals (`ws.GetMessageClientIDForWebsocketServer`,
outside the provided sources); its value is immaterial to the theorems. -/
def serverSideClientID : Int := 0

/-- Modelled from the spec: `ws.NewEmptyMessage` builds the envelope with
the given signal kind, target scope and broadcast flag and an empty
payload; constructing it never fails. -/
def newEmptyMessage (appID clientID : Int) (s : Signal) (t : Target)
    (b : Bool) : Except Unit WsMessage :=
  Except.ok
    { clientID := clientID, appID := appID, signal := s, target := t
      broadcast := b }

/-- Modelled from the spec: the status code the recovery endpoint attaches
to the force-refresh feedback (`ws.ERROR_FORCE_REFRESH_WINDOW`, outside the
provided sources); its value is immaterial to the theorems. -/
def ERROR_FORCE_REFRESH_WINDOW : Int := 0

/-- The only body the recovery handler ever writes:
the JSON object mapping the key ok to the value true. -/
inductive RecoverBody
  | okTrueJson
deriving DecidableEq, Repr

/-- Observable outcome of one recovery request: the response body written
(if any) and the room-directed feedback dispatch (status code, room key
of teamID and appID, and message), if one was issued. -/
structure RecoverOutcome where
  body : Option RecoverBody
  dispatched : Option (Int × (Int × Int) × WsMessage)
deriving DecidableEq, Repr

/-- The HTTP method of the requests the recovery endpoint acts on. -/
def methodPost : String := "POST"

/-- The recoverSnapshot handler (main): after the CORS headers, an
`OPTIONS` request gets 204 No Content; a failed or errored authorization
validation and a failed or errored permission check each return without
writing a body; otherwise a force-refresh / whole-window / broadcast
message is built and, unless its construction failed, dispatched to the
room of the request's team and application, and the ok-true body is
written.  The results of the two external checks and the message
constructor are parameters, as they are collaborator calls. -/
def recoverSnapshotHandler (method : String) (teamID appID : Int)
    (validateUserAccount : Except Unit Bool)
    (canManage : Except Unit Bool)
    (mkMessage : Int → Int → Signal → Target → Bool → Except Unit WsMessage) :
    RecoverOutcome :=
  if method == "OPTIONS" then { body := none, dispatched := none }
  else
    match validateUserAccount with
    | Except.error _ => { body := none, dispatched := none }
    | Except.ok validated =>
      if !validated then { body := none, dispatched := none }
      else
        match canManage with
        | Except.error _ => { body := none, dispatched := none }
        | Except.ok can =>
          if !can then { body := none, dispatched := none }
          else
            match mkMessage appID serverSideClientID Signal.forceRefresh
                Target.window true with
            | Except.error _ =>
              { body := some RecoverBody.okTrueJson, dispatched := none }
            | Except.ok msg =>
              { body := some RecoverBody.okTrueJson
                dispatched := some (ERROR_FORCE_REFRESH_WINDOW,
                  (teamID, appID), msg) }

/-- Modelled from the spec: `Hub.SendFeedbackToTargetRoomAllClients`
delivers the message to every client currently in the room of the given
team and application (the `SendToRoom` operation of §4.1); `rooms` gives
the membership of each room. -/
def sendFeedbackToTargetRoomAllClients (rooms : Int × Int → List Int)
    (errorCode : Int) (m : WsMessage) (teamID appID : Int) :
    List (Int × WsMessage) :=
  (rooms (teamID, appID)).map (fun c => (c, m))

/-- The deliveries caused by one recovery request: the dispatched feedback,
if any, fanned out to the room by the hub. -/
def recoverSnapshotDeliveries (rooms : Int × Int → List Int)
    (method : String) (teamID appID : Int)
    (validateUserAccount : Except Unit Bool) (canManage : Except Unit Bool)
    (mkMessage : Int → Int → Signal → Target → Bool → Except Unit WsMessage) :
    List (Int × WsMessage) :=
  match (recoverSnapshotHandler method teamID appID validateUserAccount
      canManage mkMessage).dispatched with
  | none => []
  | some (code, (t, a), m) =>
    sendFeedbackToTargetRoomAllClients rooms code m t a

/-- TreeState row (internal/repository): identity, `stateType`,
`parentNodeRefID`, `childrenNodeRefIDs` — declared `int` in the source,
column type `bigint` — `appRefID`, `version`, `name`, `content` and the
four audit fields. -/
structure TreeState where
  ID : Int
  StateType : Int
  ParentNodeRefID : Int
  ChildrenNodeRefIDs : Int
  AppRefID : Int
  Version : Int
  Name : String
  Content : String
  CreatedAt : Int
  CreatedBy : Int
  UpdatedAt : Int
  UpdatedBy : Int
deriving DecidableEq, Repr

/-- The JSON value a single `TreeState` field serializes to: either a JSON
number (a Go `int` field) or a JSON array of references (what a
reference-list field would produce). -/
inductive GoJsonField
  | num (n : Int)
  | intArr (elems : List Int)
deriving DecidableEq, Repr

/-- Whether a serialized field is a JSON array. -/
def GoJsonField.isArr : GoJsonField → Bool
  | .intArr _ => true
  | _ => false

/-- Whether a serialized field is a single JSON number. -/
def GoJsonField.isNum : GoJsonField → Bool
  | .num _ => true
  | _ => false

/-- The serialization of the `children_node_ref_ids` field: the source
declares the field `ChildrenNodeRefIDs int` with a JSON tag, so the field
serializes as a single JSON number. -/
def TreeState.childrenNodeRefIDsJson (t : TreeState) : GoJsonField :=
  GoJsonField.num t.ChildrenNodeRefIDs

/-- A concrete tree-state row. -/
def treeSample : TreeState :=
  ⟨1, 1, 0, 5, 42, 7, "root", "cont", 10, 7, 10, 7⟩

/-- A concrete update row addressing `treeSample` by identity. -/
def treeUpdateSample : TreeState :=
  ⟨1, 2, 3, 4, 42, 8, "n", "c2", 99, 99, 20, 9⟩

/-- The struct-argument update rule of the persistence layer under
`Updates`: a zero-valued field of the update struct is skipped, keeping the
stored value (integer zero value 0). -/
def nzInt (upd stored : Int) : Int :=
  if upd = 0 then stored else upd

/-- Zero-value skip for string columns (zero value is the empty string). -/
def nzStr (upd stored : String) : String :=
  if upd = "" then stored else upd

/-- The field assignment performed by the TreeState repository `Update` on
the stored row: the update struct lists `ID`, `StateType`,
`ParentNodeRefID`, `ChildrenNodeRefIDs`, `AppRefID`, `Version`, `Name`,
`Content`, `UpdatedAt` and `UpdatedBy` (each applied under the zero-value
skip rule) and omits `CreatedAt` and `CreatedBy`, which therefore keep the
stored values. -/
def treeStateApplyUpdates (stored t : TreeState) : TreeState :=
  { ID := nzInt t.ID stored.ID
    StateType := nzInt t.StateType stored.StateType
    ParentNodeRefID := nzInt t.ParentNodeRefID stored.ParentNodeRefID
    ChildrenNodeRefIDs := nzInt t.ChildrenNodeRefIDs stored.ChildrenNodeRefIDs
    AppRefID := nzInt t.AppRefID stored.AppRefID
    Version := nzInt t.Version stored.Version
    Name := nzStr t.Name stored.Name
    Content := nzStr t.Content stored.Content
    CreatedAt := stored.CreatedAt
    CreatedBy := stored.CreatedBy
    UpdatedAt := nzInt t.UpdatedAt stored.UpdatedAt
    UpdatedBy := nzInt t.UpdatedBy stored.UpdatedBy }

/-- Embedding of `TreeStateRepositoryImpl.Update`: the model call addresses
the stored row by the primary key of the argument, and the update call
rewrites that row's listed fields; every other row is untouched. -/
def treeStateUpdate (t : TreeState) (store : List TreeState) :
    List TreeState :=
  store.map (fun r => if r.ID = t.ID then treeStateApplyUpdates r t else r)

/-- Modelled from the spec: the application DTO (`pkg/app.AppDto`, declared
outside the provided sources) — identity, mainline/release versions and
audit data of the Application entity of §3.  Its fields are exactly those
`NewAppDtoForExport` reads, plus the deployment flag; the UUID, config and
activity payloads are kept as type parameters, `time.Time` is `Int`. -/
structure AppDto (Uu Cfg Act : Type) where
  ID : Int
  UID : Uu
  TeamID : Int
  Name : String
  ReleaseVersion : Int
  MainlineVersion : Int
  Deployed : Bool
  Config : Cfg
  CreatedBy : Int
  CreatedAt : Int
  UpdatedBy : Int
  UpdatedAt : Int
  AppActivity : Act

/-- Export form of an application (`AppDtoForExport`, src/pkg/app), with
identity and user references as strings. -/
structure AppDtoForExport (Uu Cfg Act : Type) where
  ID : String
  UID : Uu
  TeamID : String
  Name : String
  ReleaseVersion : Int
  MainlineVersion : Int
  Deployed : Bool
  Config : Cfg
  CreatedBy : String
  CreatedAt : Int
  UpdatedBy : String
  UpdatedAt : Int
  AppActivity : Act

/-- Embedding of `NewAppDtoForExport` (src/pkg/app): copies the
application's data into the export DTO, converting the `ID`, `TeamID`,
`CreatedBy` and `UpdatedBy` integers to strings through
`idconvertor.ConvertIntToString` (an external conversion, taken as the
parameter `conv`).  The source's struct literal omits `Deployed`, so it
takes the Go zero value false. -/
def newAppDtoForExport {Uu Cfg Act : Type} (conv : Int → String)
    (a : AppDto Uu Cfg Act) : AppDtoForExport Uu Cfg Act :=
  { ID := conv a.ID
    UID := a.UID
    TeamID := conv a.TeamID
    Name := a.Name
    ReleaseVersion := a.ReleaseVersion
    MainlineVersion := a.MainlineVersion
    Deployed := false
    Config := a.Config
    CreatedBy := conv a.CreatedBy
    CreatedAt := a.CreatedAt
    UpdatedBy := conv a.UpdatedBy
    UpdatedAt := a.UpdatedAt
    AppActivity := a.AppActivity }

/-- With a repository that never fails, the create loop appends every
restamped row to the store and reports no error. -/
theorem createLoop_reliable (l store : List KVState) :
    createLoop reliableKVRepo store l = (none, store ++ l) := by
  induction l generalizing store with
  | nil => simp [createLoop]
  | cons kv rest ih =>
    have hc : reliableKVRepo.createFails kv store = false := rfl
    simp [createLoop, hc, ih, List.append_assoc]

/-- Whatever the repository behaviour, the create loop leaves the store
extended by an initial segment of the rows to create, the whole list
exactly when no error is reported. -/
theorem createLoop_initial_segment (beh : KVRepoBehavior)
    (l store : List KVState) :
    ∃ k ≤ l.length,
      (createLoop beh store l).2 = store ++ l.take k
      ∧ ((createLoop beh store l).1 = none → k = l.length) := by
  induction l generalizing store with
  | nil => exact ⟨0, by simp [createLoop]⟩
  | cons kv rest ih =>
    by_cases hf : beh.createFails kv store
    · refine ⟨0, by simp, ?_, ?_⟩ <;> simp [createLoop, hf]
    · obtain ⟨k, hk, hstore, hnone⟩ := ih (store ++ [kv])
      refine ⟨k + 1, by simpa using hk, ?_, ?_⟩
      · simp [createLoop, hf, hstore, List.append_assoc]
      · intro h
        rw [hnone (by simpa [createLoop, hf] using h)]
        simp

/-- Restamping the version changes no other field. -/
theorem stampVersion_fields (m : Int) (kv : KVState) :
    (stampVersion m kv).Version = m
    ∧ (stampVersion m kv).StateType = kv.StateType
    ∧ (stampVersion m kv).AppRefID = kv.AppRefID
    ∧ (stampVersion m kv).Key = kv.Key
    ∧ (stampVersion m kv).Value = kv.Value :=
  ⟨rfl, rfl, rfl, rfl, rfl⟩

/-- Appending the mainline-stamped copies does not change which rows the
edit-version retrieval returns, provided the mainline version differs from
the edit version. -/
theorem retrieve_edit_after_copies (app : AppRef) (store : List KVState)
    (h : app.MainlineVersion ≠ APP_EDIT_VERSION) :
    retrieveAllTypeKVStatesByApp (store ++ releasedCopies store app)
        app.ID APP_EDIT_VERSION
      = retrieveAllTypeKVStatesByApp store app.ID APP_EDIT_VERSION := by
  unfold retrieveAllTypeKVStatesByApp
  rw [List.filter_append]
  have hnil : (releasedCopies store app).filter
      (fun kv => kv.AppRefID == app.ID && kv.Version == APP_EDIT_VERSION) = [] := by
    refine List.filter_eq_nil_iff.mpr ?_
    intro kv hkv
    obtain ⟨kv0, _, rfl⟩ := List.mem_map.mp hkv
    simp [stampVersion, h]
  rw [hnil, List.append_nil]

/-- C1: on an application with N edit-version KV-state rows,
`ReleaseKVStateByApp` (with a repository that does not fail) appends exactly
N new rows stamped with the application's mainline version, whose
`StateType`, `AppRefID`, `Key` and `Value` equal those of the corresponding
edit-version rows; the pre-existing rows are neither updated nor deleted,
and the edit-version rows are unchanged in count and content. -/
theorem releaseKVStateByApp_copies_edit_rows (app : AppRef)
    (store : List KVState) (h : app.MainlineVersion ≠ APP_EDIT_VERSION) :
    releaseKVStateByApp reliableKVRepo app store
        = (none, store ++ releasedCopies store app)
    ∧ (releasedCopies store app).length
        = (retrieveAllTypeKVStatesByApp store app.ID APP_EDIT_VERSION).length
    ∧ (∀ i, ∀ hi : i <
          (retrieveAllTypeKVStatesByApp store app.ID APP_EDIT_VERSION).length,
        (releasedCopies store app).get
            ⟨i, by simpa [releasedCopies] using hi⟩
          = stampVersion app.MainlineVersion
              ((retrieveAllTypeKVStatesByApp store app.ID
                  APP_EDIT_VERSION).get ⟨i, hi⟩))
    ∧ (∀ m kv, (stampVersion m kv).Version = m
        ∧ (stampVersion m kv).StateType = kv.StateType
        ∧ (stampVersion m kv).AppRefID = kv.AppRefID
        ∧ (stampVersion m kv).Key = kv.Key
        ∧ (stampVersion m kv).Value = kv.Value)
    ∧ retrieveAllTypeKVStatesByApp (store ++ releasedCopies store app)
          app.ID APP_EDIT_VERSION
        = retrieveAllTypeKVStatesByApp store app.ID APP_EDIT_VERSION := by
  refine ⟨?_, by simp [releasedCopies], ?_, fun m kv => stampVersion_fields m kv,
    retrieve_edit_after_copies app store h⟩
  · unfold releaseKVStateByApp
    have hr : reliableKVRepo.retrieveAllFails app.ID store = false := rfl
    rw [if_neg (by simp [hr])]
    exact createLoop_reliable _ _
  · intro i hi
    simp [releasedCopies, List.getElem_map]

/-- Witness for C1 at a concrete application and store. -/
theorem releaseKVStateByApp_copies_edit_rows_witness :
    (⟨1, 3⟩ : AppRef).MainlineVersion ≠ APP_EDIT_VERSION
    ∧ releaseKVStateByApp reliableKVRepo ⟨1, 3⟩ [kvSampleA, kvSampleB]
        = (none, [kvSampleA, kvSampleB]
            ++ releasedCopies [kvSampleA, kvSampleB] ⟨1, 3⟩) :=
  ⟨by decide,
    (releaseKVStateByApp_copies_edit_rows ⟨1, 3⟩ [kvSampleA, kvSampleB]
      (by decide)).1⟩

/-- C2 counterexample: with two edit-version rows and a repository whose
second `Create` fails, `ReleaseKVStateByApp` surfaces the error but leaves
exactly one of the two copies persisted — the visible state is neither
"none copied" nor "all copied", so the release is not all-or-nothing. -/
theorem releaseKVStateByApp_not_atomic :
    (releaseKVStateByApp flakyKVRepo ⟨1, 3⟩ [kvSampleA, kvSampleB]).1
        = some RepoErr.failure
    ∧ (releaseKVStateByApp flakyKVRepo ⟨1, 3⟩ [kvSampleA, kvSampleB]).2
        = [kvSampleA, kvSampleB, stampVersion 3 kvSampleA]
    ∧ [kvSampleA, kvSampleB, stampVersion 3 kvSampleA]
        ≠ [kvSampleA, kvSampleB]
    ∧ [kvSampleA, kvSampleB, stampVersion 3 kvSampleA]
        ≠ [kvSampleA, kvSampleB]
            ++ releasedCopies [kvSampleA, kvSampleB] ⟨1, 3⟩ := by
  decide

/-- C2 amended: for every repository behaviour, `ReleaseKVStateByApp`
surfaces any repository error to the caller, and the visible state after the
call is the original store extended by an initial segment of the
mainline-stamped copies — the whole of it exactly when no error occurred.
A failure part-way through the copy loop leaves the earlier copies
persisted (there is no transaction around the loop). -/
theorem releaseKVStateByApp_partial_copy (beh : KVRepoBehavior)
    (app : AppRef) (store : List KVState) :
    ∃ k ≤ (releasedCopies store app).length,
      (releaseKVStateByApp beh app store).2
          = store ++ (releasedCopies store app).take k
      ∧ ((releaseKVStateByApp beh app store).1 = none
          → k = (releasedCopies store app).length) := by
  unfold releaseKVStateByApp
  by_cases hr : beh.retrieveAllFails app.ID store
  · refine ⟨0, Nat.zero_le _, ?_, ?_⟩ <;> simp [hr]
  · obtain ⟨k, hk, h2, h1⟩ :=
      createLoop_initial_segment beh (releasedCopies store app) store
    rw [if_neg hr]
    refine ⟨k, hk, ?_, ?_⟩
    · simpa [releasedCopies] using h2
    · simpa [releasedCopies] using h1

/-- With a repository that does not fail, a release always reports
success. -/
theorem releaseKVStateByApp_reliable_ok (app : AppRef) (store : List KVState) :
    (releaseKVStateByApp reliableKVRepo app store).1 = none := by
  unfold releaseKVStateByApp
  have hr : reliableKVRepo.retrieveAllFails app.ID store = false := rfl
  rw [if_neg (by simp [hr])]
  rw [createLoop_reliable]

/-- C5 counterexample: two releases of the same application executed
back-to-back (one admissible serialization of two concurrently issued
releases) both succeed — the second is not rejected, and no
release-conflict outcome exists anywhere in the service. -/
theorem releaseKVStateByApp_no_conflict_detection :
    (releaseKVStateByApp reliableKVRepo ⟨1, 3⟩ [kvSampleA]).1 = none
    ∧ (releaseKVStateByApp reliableKVRepo ⟨1, 3⟩
        (releaseKVStateByApp reliableKVRepo ⟨1, 3⟩ [kvSampleA]).2).1 = none := by
  decide

/-- C5 amended: `ReleaseKVStateByApp` performs no conflict detection: for
every application and store, two releases run in sequence (with a repository
that does not fail) both succeed, and whatever the repository behaviour the
only error the operation can ever report is a repository error — there is no
release-conflict error in the code. -/
theorem releaseKVStateByApp_conflict_free (app : AppRef)
    (store : List KVState) :
    (releaseKVStateByApp reliableKVRepo app store).1 = none
    ∧ (releaseKVStateByApp reliableKVRepo app
        (releaseKVStateByApp reliableKVRepo app store).2).1 = none
    ∧ (∀ beh : KVRepoBehavior,
        (releaseKVStateByApp beh app store).1 = none
        ∨ (releaseKVStateByApp beh app store).1 = some RepoErr.failure) := by
  refine ⟨releaseKVStateByApp_reliable_ok app store,
    releaseKVStateByApp_reliable_ok app _, fun beh => ?_⟩
  cases h : (releaseKVStateByApp beh app store).1 with
  | none => exact Or.inl rfl
  | some e => cases e; exact Or.inr rfl

/-- The scoping tuple ignores the audit timestamps. -/
theorem kvSameTuple_stamp (a b : KVState) (c u : Int) :
    kvSameTuple a { b with CreatedAt := c, UpdatedAt := u }
      = kvSameTuple a b := rfl

/-- Appending a row whose tuple already occurs in the store violates
uniqueness. -/
theorem kvUniqueB_append_dup (l : List KVState) (x : KVState)
    (h : ∃ r ∈ l, kvSameTuple r x = true) :
    kvUniqueB (l ++ [x]) = false := by
  induction l with
  | nil => simp at h
  | cons r rest ih =>
    obtain ⟨r0, hr0, hsame⟩ := h
    rcases List.mem_cons.mp hr0 with h0 | h0
    · subst h0
      have hall : ((rest ++ [x]).all (fun y => !(kvSameTuple r0 y))) = false := by
        refine List.all_eq_false.mpr ⟨x, by simp, by simp [hsame]⟩
      simp [kvUniqueB, hall]
    · have hrec := ih ⟨r0, h0, hsame⟩
      simp [kvUniqueB, hrec]

/-- C6 counterexample: `CreateKVState` (with its actual, tag-less struct
check) accepts a payload whose `(appRefID, version, stateType, key)` tuple
already occurs in the store, and produces a second row with that tuple —
the uniqueness invariant is not preserved. -/
theorem createKVState_breaks_uniqueness :
    kvUniqueB [kvSampleA] = true
    ∧ (createKVState kvStateStructCheck 7 12 kvDupA [kvSampleA]).1
        = Except.ok { kvDupA with CreatedAt := 12, UpdatedAt := 12 }
    ∧ (createKVState kvStateStructCheck 7 12 kvDupA [kvSampleA]).2
        = [kvSampleA, { kvDupA with CreatedAt := 12, UpdatedAt := 12 }]
    ∧ kvUniqueB
        [kvSampleA, { kvDupA with CreatedAt := 12, UpdatedAt := 12 }]
        = false :=
  ⟨by decide, rfl, rfl, by decide⟩

/-- C6 amended: no KV-state operation checks the uniqueness invariant:
whenever the store already holds a row with the same
`(appRefID, version, stateType, key)` tuple as the payload,
`CreateKVState` succeeds anyway and the resulting store violates
uniqueness. -/
theorem createKVState_no_uniqueness_guard (version now : Int)
    (kv : KVState) (store : List KVState)
    (h : store.any (fun r => kvSameTuple r kv) = true) :
    (createKVState kvStateStructCheck version now kv store).1
        = Except.ok { kv with CreatedAt := now, UpdatedAt := now }
    ∧ kvUniqueB (createKVState kvStateStructCheck version now kv store).2
        = false := by
  have hex : ∃ r ∈ store,
      kvSameTuple r { kv with CreatedAt := now, UpdatedAt := now } = true := by
    obtain ⟨r, hr, hs⟩ := List.any_eq_true.mp h
    exact ⟨r, hr, by rw [kvSameTuple_stamp]; exact hs⟩
  exact ⟨rfl, kvUniqueB_append_dup store _ hex⟩

/-- Witness for the amended C6 at a concrete duplicate payload. -/
theorem createKVState_no_uniqueness_guard_witness :
    [kvSampleA].any (fun r => kvSameTuple r kvDupA) = true
    ∧ kvUniqueB (createKVState kvStateStructCheck 7 12 kvDupA [kvSampleA]).2
        = false :=
  ⟨by decide,
    (createKVState_no_uniqueness_guard 7 12 kvDupA [kvSampleA] (by decide)).2⟩

/-- C7: whatever the validator's behaviour, a payload failing the struct
check makes `CreateKVState` and `UpdateKVState` return the validation error
with the store untouched — the repository is never invoked for a rejected
operation. -/
theorem kvState_rejects_before_repository
    (check : KVState → Option VErr) (version now : Int) (kv : KVState)
    (store : List KVState) (e : VErr) (h : check kv = some e) :
    createKVState check version now kv store = (Except.error e, store)
    ∧ updateKVState check version now kv store = (Except.error e, store) := by
  constructor <;> simp [createKVState, updateKVState, h]

/-- Witness for C7 with a rejecting check at a concrete payload. -/
theorem kvState_rejects_before_repository_witness :
    (fun _ : KVState => some VErr.invalid) kvSampleA = some VErr.invalid
    ∧ createKVState (fun _ => some VErr.invalid) 7 12 kvSampleA [kvSampleB]
        = (Except.error VErr.invalid, [kvSampleB]) :=
  ⟨rfl,
    (kvState_rejects_before_repository (fun _ => some VErr.invalid) 7 12
      kvSampleA [kvSampleB] VErr.invalid rfl).1⟩

/-- C3 counterexample: a POST request whose authorization validation
errors makes the handler return early — the response body is empty, not
the ok-true JSON object. -/
theorem recoverSnapshot_auth_failure_empty_body :
    recoverSnapshotHandler methodPost 1 2 (Except.error ()) (Except.ok true)
        newEmptyMessage
      = { body := none, dispatched := none }
    ∧ (recoverSnapshotHandler methodPost 1 2 (Except.error ())
        (Except.ok true) newEmptyMessage).body
      ≠ some RecoverBody.okTrueJson :=
  ⟨rfl, by decide⟩

/-- C3 amended: the handler writes the ok-true body exactly when both
the authorization validation and the permission check succeed
affirmatively (whether or not building the broadcast message then fails);
a request failing or erroring either check receives an empty response
body, the handler returning early without writing. -/
theorem recoverSnapshot_ok_iff_checks_pass (teamID appID : Int)
    (vr cr : Except Unit Bool)
    (mk : Int → Int → Signal → Target → Bool → Except Unit WsMessage) :
    (recoverSnapshotHandler methodPost teamID appID vr cr mk).body
        = some RecoverBody.okTrueJson
      ↔ vr = Except.ok true ∧ cr = Except.ok true := by
  unfold recoverSnapshotHandler methodPost
  rcases vr with e | v
  · simp
  · rcases cr with e | c
    · cases v <;> simp
    · cases v <;> cases c <;>
        (cases h : mk appID serverSideClientID Signal.forceRefresh
            Target.window true <;> simp [h])

/-- C4: on a request passing both the authorization and the permission
check, the handler builds a message with signal kind force-refresh, target
scope whole-window and broadcast flag true, dispatches it to the room of
the request's team and application, and (per the hub's room fan-out) every
client in that room receives exactly that message. -/
theorem recoverSnapshot_force_refresh_broadcast
    (rooms : Int × Int → List Int) (teamID appID : Int) :
    (recoverSnapshotHandler methodPost teamID appID (Except.ok true)
        (Except.ok true) newEmptyMessage).dispatched
      = some (ERROR_FORCE_REFRESH_WINDOW, (teamID, appID),
          { clientID := serverSideClientID, appID := appID
            signal := Signal.forceRefresh, target := Target.window
            broadcast := true })
    ∧ recoverSnapshotDeliveries rooms methodPost teamID appID
        (Except.ok true) (Except.ok true) newEmptyMessage
      = (rooms (teamID, appID)).map (fun c =>
          (c, { clientID := serverSideClientID, appID := appID
                signal := Signal.forceRefresh, target := Target.window
                broadcast := true })) :=
  ⟨rfl, rfl⟩

/-- C8 counterexample: on a concrete row the childrenNodeRefIDs field is
the single integer 5 and does not serialize as an array — it is a scalar,
not a reference list. -/
theorem treeState_children_scalar_on_sample :
    TreeState.childrenNodeRefIDsJson treeSample = GoJsonField.num 5
    ∧ (TreeState.childrenNodeRefIDsJson treeSample).isArr = false :=
  ⟨rfl, rfl⟩

/-- C8 amended: every `TreeState` record stores its children reference in
childrenNodeRefIDs as a single integer scalar (column type bigint,
serialized as a JSON number), not as a list of references. -/
theorem treeState_children_single_scalar (t : TreeState) :
    TreeState.childrenNodeRefIDsJson t = GoJsonField.num t.ChildrenNodeRefIDs
    ∧ (TreeState.childrenNodeRefIDsJson t).isArr = false
    ∧ (TreeState.childrenNodeRefIDsJson t).isNum = true :=
  ⟨rfl, rfl, rfl⟩

/-- A skipped-or-applied integer field is the stored or the update value. -/
theorem nzInt_or (u s : Int) : nzInt u s = s ∨ nzInt u s = u := by
  unfold nzInt; split <;> simp

/-- A skipped-or-applied string field is the stored or the update value. -/
theorem nzStr_or (u s : String) : nzStr u s = s ∨ nzStr u s = u := by
  unfold nzStr; split <;> simp

/-- C9: the repository `Update` on a TreeState row leaves every row's
`CreatedAt`, `CreatedBy` and `ID` unchanged, gives each of the mutable
fields (`StateType`, `ParentNodeRefID`, `ChildrenNodeRefIDs`, `AppRefID`,
`Version`, `Name`, `Content`, `UpdatedAt`, `UpdatedBy`) either its stored
value or the update's value, and does not touch rows whose identity
differs from the update's. -/
theorem treeStateUpdate_audit_frame (t : TreeState) (store : List TreeState)
    (i : Nat) (h : i < store.length) :
    ∃ hlen : i < (treeStateUpdate t store).length,
      ((treeStateUpdate t store).get ⟨i, hlen⟩).CreatedAt
          = (store.get ⟨i, h⟩).CreatedAt
      ∧ ((treeStateUpdate t store).get ⟨i, hlen⟩).CreatedBy
          = (store.get ⟨i, h⟩).CreatedBy
      ∧ ((treeStateUpdate t store).get ⟨i, hlen⟩).ID = (store.get ⟨i, h⟩).ID
      ∧ (((treeStateUpdate t store).get ⟨i, hlen⟩).StateType
            = (store.get ⟨i, h⟩).StateType
          ∨ ((treeStateUpdate t store).get ⟨i, hlen⟩).StateType = t.StateType)
      ∧ (((treeStateUpdate t store).get ⟨i, hlen⟩).ParentNodeRefID
            = (store.get ⟨i, h⟩).ParentNodeRefID
          ∨ ((treeStateUpdate t store).get ⟨i, hlen⟩).ParentNodeRefID
            = t.ParentNodeRefID)
      ∧ (((treeStateUpdate t store).get ⟨i, hlen⟩).ChildrenNodeRefIDs
            = (store.get ⟨i, h⟩).ChildrenNodeRefIDs
          ∨ ((treeStateUpdate t store).get ⟨i, hlen⟩).ChildrenNodeRefIDs
            = t.ChildrenNodeRefIDs)
      ∧ (((treeStateUpdate t store).get ⟨i, hlen⟩).AppRefID
            = (store.get ⟨i, h⟩).AppRefID
          ∨ ((treeStateUpdate t store).get ⟨i, hlen⟩).AppRefID = t.AppRefID)
      ∧ (((treeStateUpdate t store).get ⟨i, hlen⟩).Version
            = (store.get ⟨i, h⟩).Version
          ∨ ((treeStateUpdate t store).get ⟨i, hlen⟩).Version = t.Version)
      ∧ (((treeStateUpdate t store).get ⟨i, hlen⟩).Name
            = (store.get ⟨i, h⟩).Name
          ∨ ((treeStateUpdate t store).get ⟨i, hlen⟩).Name = t.Name)
      ∧ (((treeStateUpdate t store).get ⟨i, hlen⟩).Content
            = (store.get ⟨i, h⟩).Content
          ∨ ((treeStateUpdate t store).get ⟨i, hlen⟩).Content = t.Content)
      ∧ (((treeStateUpdate t store).get ⟨i, hlen⟩).UpdatedAt
            = (store.get ⟨i, h⟩).UpdatedAt
          ∨ ((treeStateUpdate t store).get ⟨i, hlen⟩).UpdatedAt = t.UpdatedAt)
      ∧ (((treeStateUpdate t store).get ⟨i, hlen⟩).UpdatedBy
            = (store.get ⟨i, h⟩).UpdatedBy
          ∨ ((treeStateUpdate t store).get ⟨i, hlen⟩).UpdatedBy = t.UpdatedBy)
      ∧ ((store.get ⟨i, h⟩).ID ≠ t.ID
          → (treeStateUpdate t store).get ⟨i, hlen⟩ = store.get ⟨i, h⟩) := by
  have hlen : i < (treeStateUpdate t store).length := by
    simpa [treeStateUpdate] using h
  refine ⟨hlen, ?_⟩
  have hget : (treeStateUpdate t store).get ⟨i, hlen⟩
      = if (store.get ⟨i, h⟩).ID = t.ID
        then treeStateApplyUpdates (store.get ⟨i, h⟩) t
        else store.get ⟨i, h⟩ := by
    simp [treeStateUpdate, List.get_eq_getElem, List.getElem_map]
  rw [hget]
  by_cases hid : (store.get ⟨i, h⟩).ID = t.ID
  · rw [if_pos hid]
    have hID : nzInt t.ID (store.get ⟨i, h⟩).ID = (store.get ⟨i, h⟩).ID := by
      unfold nzInt
      split
      · rfl
      · exact hid.symm
    exact ⟨rfl, rfl, hID, nzInt_or _ _, nzInt_or _ _, nzInt_or _ _,
      nzInt_or _ _, nzInt_or _ _, nzStr_or _ _, nzStr_or _ _, nzInt_or _ _,
      nzInt_or _ _, fun hne => absurd hid hne⟩
  · rw [if_neg hid]
    exact ⟨rfl, rfl, rfl, Or.inl rfl, Or.inl rfl, Or.inl rfl, Or.inl rfl,
      Or.inl rfl, Or.inl rfl, Or.inl rfl, Or.inl rfl, Or.inl rfl,
      fun _ => rfl⟩

/-- Witness for C9 at a concrete update and store. -/
theorem treeStateUpdate_audit_frame_witness :
    (0 : Nat) < [treeSample].length
    ∧ ∃ hlen : 0 < (treeStateUpdate treeUpdateSample [treeSample]).length,
        ((treeStateUpdate treeUpdateSample [treeSample]).get
            ⟨0, hlen⟩).CreatedAt
          = ([treeSample].get ⟨0, by decide⟩).CreatedAt :=
  ⟨by decide,
    match treeStateUpdate_audit_frame treeUpdateSample [treeSample] 0
      (by decide) with
    | ⟨hlen, hca, _⟩ => ⟨hlen, hca⟩⟩

/-- C10: for every input DTO — whatever its deployment state — the export
DTO has a false deployed flag; `Name`, `ReleaseVersion`, `MainlineVersion`,
`Config`, `UID`, `AppActivity` and the audit timestamps are copied, and
`ID`, `TeamID`, `CreatedBy`, `UpdatedBy` are the string conversions of the
input integers. -/
theorem newAppDtoForExport_fields {Uu Cfg Act : Type} (conv : Int → String)
    (a : AppDto Uu Cfg Act) :
    (newAppDtoForExport conv a).Deployed = false
    ∧ (newAppDtoForExport conv a).Name = a.Name
    ∧ (newAppDtoForExport conv a).ReleaseVersion = a.ReleaseVersion
    ∧ (newAppDtoForExport conv a).MainlineVersion = a.MainlineVersion
    ∧ (newAppDtoForExport conv a).Config = a.Config
    ∧ (newAppDtoForExport conv a).UID = a.UID
    ∧ (newAppDtoForExport conv a).AppActivity = a.AppActivity
    ∧ (newAppDtoForExport conv a).CreatedAt = a.CreatedAt
    ∧ (newAppDtoForExport conv a).UpdatedAt = a.UpdatedAt
    ∧ (newAppDtoForExport conv a).ID = conv a.ID
    ∧ (newAppDtoForExport conv a).TeamID = conv a.TeamID
    ∧ (newAppDtoForExport conv a).CreatedBy = conv a.CreatedBy
    ∧ (newAppDtoForExport conv a).UpdatedBy = conv a.UpdatedBy :=
  ⟨rfl, rfl, rfl, rfl, rfl, rfl, rfl, rfl, rfl, rfl, rfl, rfl, rfl⟩

end BuilderBackend
